import Mathlib

/-!
# SpamBayes Outlook add-in: dialog resource identifiers and the configured core

The first part embeds `Outlook2000/dialogs/resources/dialogs.h`: every `#define` of the
header becomes one constructor of `ResourceId` (named as in the header) and one line of
`ResourceId.value`; the four `_APS_NEXT_*` counters are plain constants.

The second part models the threshold / action / wizard core that the dialogs configure.
That logic is not part of the header, so those definitions follow the written
specification and are marked as such.
-/

namespace SpamBayes

/-! ## `dialogs.h` -/

/-- The identifiers defined by `dialogs.h` (lines 5 to 99), in the order of the header. -/
inductive ResourceId where
  | IDD_MANAGER
  | IDD_TRAINING
  | IDD_FILTER
  | IDD_FILTER_NOW
  | IDD_FOLDER_SELECTOR
  | IDD_ADVANCED
  | IDB_BITMAP1
  | IDD_GENERAL
  | IDD_FILTER_SPAM
  | IDD_FILTER_UNSURE
  | IDD_DIAGNOSTIC
  | IDD_WIZARD
  | IDD_WIZARD_WELCOME
  | IDD_WIZARD_FINISHED_UNTRAINED
  | IDD_WIZARD_FOLDERS_REST
  | IDD_WIZARD_FOLDERS_WATCH
  | IDD_WIZARD_FINISHED_UNCONFIGURED
  | IDD_WIZARD_FOLDERS_TRAIN
  | IDD_WIZARD_TRAIN
  | IDD_WIZARD_FINISHED_UNCONFIGURED1
  | IDD_WIZARD_FINISHED_TRAINED
  | IDC_PROGRESS
  | IDC_PROGRESS_TEXT
  | IDC_STATIC_HAM
  | IDC_STATIC_SPAM
  | IDC_BROWSE_HAM
  | IDC_BROWSE_SPAM
  | IDC_START
  | IDC_BUT_REBUILD
  | IDC_BUT_RESCORE
  | IDC_VERSION
  | IDC_BUT_TRAIN_FROM_SPAM_FOLDER
  | IDC_BUT_TRAIN_TO_SPAM_FOLDER
  | IDC_BUT_TRAIN_NOW
  | IDC_BUT_FILTER_ENABLE
  | IDC_FILTER_STATUS
  | IDC_BUT_FILTER_NOW
  | IDC_BUT_FILTER_DEFINE
  | IDC_BUT_ABOUT
  | IDC_BUT_ACT_SCORE
  | IDC_BUT_ACT_ALL
  | IDC_BUT_UNREAD
  | IDC_BUT_UNSEEN
  | IDC_BUT_FILTERNOW
  | IDC_SLIDER_CERTAIN
  | IDC_EDIT_CERTAIN
  | IDC_ACTION_CERTAIN
  | IDC_TOFOLDER_CERTAIN
  | IDC_FOLDER_CERTAIN
  | IDC_BROWSE_CERTAIN
  | IDC_SLIDER_UNSURE
  | IDC_EDIT_UNSURE
  | IDC_ACTION_UNSURE
  | IDC_TOFOLDER_UNSURE
  | IDC_FOLDER_UNSURE
  | IDC_BROWSE_UNSURE
  | IDC_TRAINING_STATUS
  | IDC_FOLDER_NAMES
  | IDC_BROWSE
  | IDC_FOLDER_WATCH
  | IDC_BROWSE_WATCH
  | IDC_LIST_FOLDERS
  | IDC_BUT_SEARCHSUB
  | IDC_BUT_CLEARALL
  | IDC_STATUS1
  | IDC_STATUS2
  | IDC_BUT_CLEARALL2
  | IDC_BUT_NEW
  | IDC_MARK_SPAM_AS_READ
  | IDC_SAVE_SPAM_SCORE
  | IDC_MARK_UNSURE_AS_READ
  | IDC_ADVANCED_BTN
  | IDC_DELAY1_SLIDER
  | IDC_DELAY1_TEXT
  | IDC_DELAY2_SLIDER
  | IDC_DELAY2_TEXT
  | IDC_INBOX_TIMER_ONLY
  | IDC_VERBOSE_LOG
  | IDB_SBLOGO
  | IDC_LOGO_GRAPHIC
  | IDC_USE_DELAY1
  | IDC_USE_DELAY2
  | IDC_TAB
  | IDC_BUTTON1
  | IDC_BACK_BTN
  | IDC_ABOUT_BTN
  | IDC_DEL_SPAM_RS
  | IDC_RECOVER_RS
  | IDC_HIDDEN
  | IDC_FORWARD_BTN
  | IDC_PAGE_PLACEHOLDER
  | IDC_EDIT2
  | IDC_EDIT3
  | IDC_BUT_PREPARATION
  | IDC_FOLDER_HAM
  deriving DecidableEq, Repr

/-- The numeric value each `#define` of `dialogs.h` gives its identifier. -/
def ResourceId.value : ResourceId → Nat
  | .IDD_MANAGER => 101
  | .IDD_TRAINING => 102
  | .IDD_FILTER => 103
  | .IDD_FILTER_NOW => 104
  | .IDD_FOLDER_SELECTOR => 105
  | .IDD_ADVANCED => 106
  | .IDB_BITMAP1 => 107
  | .IDD_GENERAL => 108
  | .IDD_FILTER_SPAM => 110
  | .IDD_FILTER_UNSURE => 111
  | .IDD_DIAGNOSTIC => 113
  | .IDD_WIZARD => 114
  | .IDD_WIZARD_WELCOME => 115
  | .IDD_WIZARD_FINISHED_UNTRAINED => 116
  | .IDD_WIZARD_FOLDERS_REST => 117
  | .IDD_WIZARD_FOLDERS_WATCH => 118
  | .IDD_WIZARD_FINISHED_UNCONFIGURED => 119
  | .IDD_WIZARD_FOLDERS_TRAIN => 120
  | .IDD_WIZARD_TRAIN => 121
  | .IDD_WIZARD_FINISHED_UNCONFIGURED1 => 122
  | .IDD_WIZARD_FINISHED_TRAINED => 122
  | .IDC_PROGRESS => 1000
  | .IDC_PROGRESS_TEXT => 1001
  | .IDC_STATIC_HAM => 1002
  | .IDC_STATIC_SPAM => 1003
  | .IDC_BROWSE_HAM => 1004
  | .IDC_BROWSE_SPAM => 1005
  | .IDC_START => 1006
  | .IDC_BUT_REBUILD => 1007
  | .IDC_BUT_RESCORE => 1008
  | .IDC_VERSION => 1009
  | .IDC_BUT_TRAIN_FROM_SPAM_FOLDER => 1010
  | .IDC_BUT_TRAIN_TO_SPAM_FOLDER => 1011
  | .IDC_BUT_TRAIN_NOW => 1012
  | .IDC_BUT_FILTER_ENABLE => 1013
  | .IDC_FILTER_STATUS => 1014
  | .IDC_BUT_FILTER_NOW => 1015
  | .IDC_BUT_FILTER_DEFINE => 1016
  | .IDC_BUT_ABOUT => 1017
  | .IDC_BUT_ACT_SCORE => 1018
  | .IDC_BUT_ACT_ALL => 1019
  | .IDC_BUT_UNREAD => 1020
  | .IDC_BUT_UNSEEN => 1021
  | .IDC_BUT_FILTERNOW => 1022
  | .IDC_SLIDER_CERTAIN => 1023
  | .IDC_EDIT_CERTAIN => 1024
  | .IDC_ACTION_CERTAIN => 1025
  | .IDC_TOFOLDER_CERTAIN => 1026
  | .IDC_FOLDER_CERTAIN => 1027
  | .IDC_BROWSE_CERTAIN => 1028
  | .IDC_SLIDER_UNSURE => 1029
  | .IDC_EDIT_UNSURE => 1030
  | .IDC_ACTION_UNSURE => 1031
  | .IDC_TOFOLDER_UNSURE => 1032
  | .IDC_FOLDER_UNSURE => 1033
  | .IDC_BROWSE_UNSURE => 1034
  | .IDC_TRAINING_STATUS => 1035
  | .IDC_FOLDER_NAMES => 1036
  | .IDC_BROWSE => 1037
  | .IDC_FOLDER_WATCH => 1038
  | .IDC_BROWSE_WATCH => 1039
  | .IDC_LIST_FOLDERS => 1040
  | .IDC_BUT_SEARCHSUB => 1041
  | .IDC_BUT_CLEARALL => 1042
  | .IDC_STATUS1 => 1043
  | .IDC_STATUS2 => 1044
  | .IDC_BUT_CLEARALL2 => 1045
  | .IDC_BUT_NEW => 1045
  | .IDC_MARK_SPAM_AS_READ => 1048
  | .IDC_SAVE_SPAM_SCORE => 1050
  | .IDC_MARK_UNSURE_AS_READ => 1051
  | .IDC_ADVANCED_BTN => 1055
  | .IDC_DELAY1_SLIDER => 1056
  | .IDC_DELAY1_TEXT => 1057
  | .IDC_DELAY2_SLIDER => 1058
  | .IDC_DELAY2_TEXT => 1059
  | .IDC_INBOX_TIMER_ONLY => 1060
  | .IDC_VERBOSE_LOG => 1061
  | .IDB_SBLOGO => 1062
  | .IDC_LOGO_GRAPHIC => 1063
  | .IDC_USE_DELAY1 => 1064
  | .IDC_USE_DELAY2 => 1065
  | .IDC_TAB => 1068
  | .IDC_BUTTON1 => 1069
  | .IDC_BACK_BTN => 1069
  | .IDC_ABOUT_BTN => 1070
  | .IDC_DEL_SPAM_RS => 1071
  | .IDC_RECOVER_RS => 1072
  | .IDC_HIDDEN => 1076
  | .IDC_FORWARD_BTN => 1077
  | .IDC_PAGE_PLACEHOLDER => 1078
  | .IDC_EDIT2 => 1080
  | .IDC_EDIT3 => 1081
  | .IDC_BUT_PREPARATION => 1081
  | .IDC_FOLDER_HAM => 1083

/-- The prefix of an identifier's name: `IDD_` (dialog), `IDB_` (bitmap), `IDC_` (control). -/
inductive ResourceKind where
  | IDD
  | IDB
  | IDC
  deriving DecidableEq, Repr

/-- The prefix that the name of each identifier of `dialogs.h` starts with. -/
def ResourceId.kind : ResourceId → ResourceKind
  | .IDD_MANAGER => .IDD
  | .IDD_TRAINING => .IDD
  | .IDD_FILTER => .IDD
  | .IDD_FILTER_NOW => .IDD
  | .IDD_FOLDER_SELECTOR => .IDD
  | .IDD_ADVANCED => .IDD
  | .IDB_BITMAP1 => .IDB
  | .IDD_GENERAL => .IDD
  | .IDD_FILTER_SPAM => .IDD
  | .IDD_FILTER_UNSURE => .IDD
  | .IDD_DIAGNOSTIC => .IDD
  | .IDD_WIZARD => .IDD
  | .IDD_WIZARD_WELCOME => .IDD
  | .IDD_WIZARD_FINISHED_UNTRAINED => .IDD
  | .IDD_WIZARD_FOLDERS_REST => .IDD
  | .IDD_WIZARD_FOLDERS_WATCH => .IDD
  | .IDD_WIZARD_FINISHED_UNCONFIGURED => .IDD
  | .IDD_WIZARD_FOLDERS_TRAIN => .IDD
  | .IDD_WIZARD_TRAIN => .IDD
  | .IDD_WIZARD_FINISHED_UNCONFIGURED1 => .IDD
  | .IDD_WIZARD_FINISHED_TRAINED => .IDD
  | .IDC_PROGRESS => .IDC
  | .IDC_PROGRESS_TEXT => .IDC
  | .IDC_STATIC_HAM => .IDC
  | .IDC_STATIC_SPAM => .IDC
  | .IDC_BROWSE_HAM => .IDC
  | .IDC_BROWSE_SPAM => .IDC
  | .IDC_START => .IDC
  | .IDC_BUT_REBUILD => .IDC
  | .IDC_BUT_RESCORE => .IDC
  | .IDC_VERSION => .IDC
  | .IDC_BUT_TRAIN_FROM_SPAM_FOLDER => .IDC
  | .IDC_BUT_TRAIN_TO_SPAM_FOLDER => .IDC
  | .IDC_BUT_TRAIN_NOW => .IDC
  | .IDC_BUT_FILTER_ENABLE => .IDC
  | .IDC_FILTER_STATUS => .IDC
  | .IDC_BUT_FILTER_NOW => .IDC
  | .IDC_BUT_FILTER_DEFINE => .IDC
  | .IDC_BUT_ABOUT => .IDC
  | .IDC_BUT_ACT_SCORE => .IDC
  | .IDC_BUT_ACT_ALL => .IDC
  | .IDC_BUT_UNREAD => .IDC
  | .IDC_BUT_UNSEEN => .IDC
  | .IDC_BUT_FILTERNOW => .IDC
  | .IDC_SLIDER_CERTAIN => .IDC
  | .IDC_EDIT_CERTAIN => .IDC
  | .IDC_ACTION_CERTAIN => .IDC
  | .IDC_TOFOLDER_CERTAIN => .IDC
  | .IDC_FOLDER_CERTAIN => .IDC
  | .IDC_BROWSE_CERTAIN => .IDC
  | .IDC_SLIDER_UNSURE => .IDC
  | .IDC_EDIT_UNSURE => .IDC
  | .IDC_ACTION_UNSURE => .IDC
  | .IDC_TOFOLDER_UNSURE => .IDC
  | .IDC_FOLDER_UNSURE => .IDC
  | .IDC_BROWSE_UNSURE => .IDC
  | .IDC_TRAINING_STATUS => .IDC
  | .IDC_FOLDER_NAMES => .IDC
  | .IDC_BROWSE => .IDC
  | .IDC_FOLDER_WATCH => .IDC
  | .IDC_BROWSE_WATCH => .IDC
  | .IDC_LIST_FOLDERS => .IDC
  | .IDC_BUT_SEARCHSUB => .IDC
  | .IDC_BUT_CLEARALL => .IDC
  | .IDC_STATUS1 => .IDC
  | .IDC_STATUS2 => .IDC
  | .IDC_BUT_CLEARALL2 => .IDC
  | .IDC_BUT_NEW => .IDC
  | .IDC_MARK_SPAM_AS_READ => .IDC
  | .IDC_SAVE_SPAM_SCORE => .IDC
  | .IDC_MARK_UNSURE_AS_READ => .IDC
  | .IDC_ADVANCED_BTN => .IDC
  | .IDC_DELAY1_SLIDER => .IDC
  | .IDC_DELAY1_TEXT => .IDC
  | .IDC_DELAY2_SLIDER => .IDC
  | .IDC_DELAY2_TEXT => .IDC
  | .IDC_INBOX_TIMER_ONLY => .IDC
  | .IDC_VERBOSE_LOG => .IDC
  | .IDB_SBLOGO => .IDB
  | .IDC_LOGO_GRAPHIC => .IDC
  | .IDC_USE_DELAY1 => .IDC
  | .IDC_USE_DELAY2 => .IDC
  | .IDC_TAB => .IDC
  | .IDC_BUTTON1 => .IDC
  | .IDC_BACK_BTN => .IDC
  | .IDC_ABOUT_BTN => .IDC
  | .IDC_DEL_SPAM_RS => .IDC
  | .IDC_RECOVER_RS => .IDC
  | .IDC_HIDDEN => .IDC
  | .IDC_FORWARD_BTN => .IDC
  | .IDC_PAGE_PLACEHOLDER => .IDC
  | .IDC_EDIT2 => .IDC
  | .IDC_EDIT3 => .IDC
  | .IDC_BUT_PREPARATION => .IDC
  | .IDC_FOLDER_HAM => .IDC

open ResourceId in
/-- Every identifier of `dialogs.h`, in the order of the header. -/
def ResourceId.all : List ResourceId :=
  [IDD_MANAGER, IDD_TRAINING, IDD_FILTER, IDD_FILTER_NOW, IDD_FOLDER_SELECTOR, IDD_ADVANCED,
   IDB_BITMAP1, IDD_GENERAL, IDD_FILTER_SPAM, IDD_FILTER_UNSURE, IDD_DIAGNOSTIC, IDD_WIZARD,
   IDD_WIZARD_WELCOME, IDD_WIZARD_FINISHED_UNTRAINED, IDD_WIZARD_FOLDERS_REST,
   IDD_WIZARD_FOLDERS_WATCH, IDD_WIZARD_FINISHED_UNCONFIGURED, IDD_WIZARD_FOLDERS_TRAIN,
   IDD_WIZARD_TRAIN, IDD_WIZARD_FINISHED_UNCONFIGURED1, IDD_WIZARD_FINISHED_TRAINED,
   IDC_PROGRESS, IDC_PROGRESS_TEXT, IDC_STATIC_HAM, IDC_STATIC_SPAM, IDC_BROWSE_HAM,
   IDC_BROWSE_SPAM, IDC_START, IDC_BUT_REBUILD, IDC_BUT_RESCORE, IDC_VERSION,
   IDC_BUT_TRAIN_FROM_SPAM_FOLDER, IDC_BUT_TRAIN_TO_SPAM_FOLDER, IDC_BUT_TRAIN_NOW,
   IDC_BUT_FILTER_ENABLE, IDC_FILTER_STATUS, IDC_BUT_FILTER_NOW, IDC_BUT_FILTER_DEFINE,
   IDC_BUT_ABOUT, IDC_BUT_ACT_SCORE, IDC_BUT_ACT_ALL, IDC_BUT_UNREAD, IDC_BUT_UNSEEN,
   IDC_BUT_FILTERNOW, IDC_SLIDER_CERTAIN, IDC_EDIT_CERTAIN, IDC_ACTION_CERTAIN,
   IDC_TOFOLDER_CERTAIN, IDC_FOLDER_CERTAIN, IDC_BROWSE_CERTAIN, IDC_SLIDER_UNSURE,
   IDC_EDIT_UNSURE, IDC_ACTION_UNSURE, IDC_TOFOLDER_UNSURE, IDC_FOLDER_UNSURE,
   IDC_BROWSE_UNSURE, IDC_TRAINING_STATUS, IDC_FOLDER_NAMES, IDC_BROWSE, IDC_FOLDER_WATCH,
   IDC_BROWSE_WATCH, IDC_LIST_FOLDERS, IDC_BUT_SEARCHSUB, IDC_BUT_CLEARALL, IDC_STATUS1,
   IDC_STATUS2, IDC_BUT_CLEARALL2, IDC_BUT_NEW, IDC_MARK_SPAM_AS_READ, IDC_SAVE_SPAM_SCORE,
   IDC_MARK_UNSURE_AS_READ, IDC_ADVANCED_BTN, IDC_DELAY1_SLIDER, IDC_DELAY1_TEXT,
   IDC_DELAY2_SLIDER, IDC_DELAY2_TEXT, IDC_INBOX_TIMER_ONLY, IDC_VERBOSE_LOG, IDB_SBLOGO,
   IDC_LOGO_GRAPHIC, IDC_USE_DELAY1, IDC_USE_DELAY2, IDC_TAB, IDC_BUTTON1, IDC_BACK_BTN,
   IDC_ABOUT_BTN, IDC_DEL_SPAM_RS, IDC_RECOVER_RS, IDC_HIDDEN, IDC_FORWARD_BTN,
   IDC_PAGE_PLACEHOLDER, IDC_EDIT2, IDC_EDIT3, IDC_BUT_PREPARATION, IDC_FOLDER_HAM]

/-- The header's `#define _APS_NEXT_RESOURCE_VALUE 116` (line 105). -/
def _APS_NEXT_RESOURCE_VALUE : Nat := 116

/-- The header's `#define _APS_NEXT_COMMAND_VALUE 40001` (line 106). -/
def _APS_NEXT_COMMAND_VALUE : Nat := 40001

/-- The header's `#define _APS_NEXT_CONTROL_VALUE 1086` (line 107). -/
def _APS_NEXT_CONTROL_VALUE : Nat := 1086

/-- The header's `#define _APS_NEXT_SYMED_VALUE 101` (line 108). -/
def _APS_NEXT_SYMED_VALUE : Nat := 101

/-! ## The core configured by the dialogs (threshold model, action binding, engine, wizard)

None of this logic is in `dialogs.h`; each definition below is written from the
specification's description of the operation it names. Scores live in an arbitrary
linearly ordered field `α` (the reals of the specification, or `ℚ` when evaluating). -/

/-- Modelled from the spec: the `VerdictBand` enumeration `{Ham, Unsure, Spam}`; the
header holds no classification code. -/
inductive VerdictBand where
  | Ham
  | Unsure
  | Spam
  deriving DecidableEq, Repr

/-- Modelled from the spec: the `ThresholdModel` record `{ unsureCutoff, certainCutoff }`;
the header holds only the identifiers of the sliders that edit it. -/
structure ThresholdModel (α : Type) where
  unsureCutoff : α
  certainCutoff : α
  deriving DecidableEq, Repr

/-- Modelled from the spec: the data-model invariant
`0 ≤ unsureCutoff ≤ certainCutoff ≤ 100`, absent from the header. -/
def ThresholdModel.valid {α : Type} [LinearOrderedField α] (m : ThresholdModel α) : Prop :=
  0 ≤ m.unsureCutoff ∧ m.unsureCutoff ≤ m.certainCutoff ∧ m.certainCutoff ≤ 100

instance {α : Type} [LinearOrderedField α] (m : ThresholdModel α) : Decidable m.valid := by
  unfold ThresholdModel.valid
  infer_instance

/-- Modelled from the spec: `classify(score)`, absent from the header:
`score ≥ certainCutoff → Spam`; `unsureCutoff ≤ score < certainCutoff → Unsure`; else `Ham`. -/
def ThresholdModel.classify {α : Type} [LinearOrderedField α] (m : ThresholdModel α) (score : α) :
    VerdictBand :=
  if m.certainCutoff ≤ score then VerdictBand.Spam
  else if m.unsureCutoff ≤ score ∧ score < m.certainCutoff then VerdictBand.Unsure
  else VerdictBand.Ham

/-- Modelled from the spec: the two errors of the `ThresholdModel` setters, taken from the
error taxonomy; the header defines no error. -/
inductive ThresholdError where
  | OutOfRangeError
  | OrderingViolationError
  deriving DecidableEq, Repr

/-- Modelled from the spec: `setUnsureCutoff(v)`, absent from the header. It fails with
`OutOfRangeError` if `v` is outside [0,100], fails with `OrderingViolationError` if the
update would break `unsureCutoff ≤ certainCutoff`, and otherwise stores `v`. The result is
the model after the call together with the error reported, if any; a failed call has no
effect on the model. -/
def ThresholdModel.setUnsureCutoff {α : Type} [LinearOrderedField α] (m : ThresholdModel α)
    (v : α) : ThresholdModel α × Option ThresholdError :=
  if v < 0 ∨ 100 < v then (m, some ThresholdError.OutOfRangeError)
  else if ¬ v ≤ m.certainCutoff then (m, some ThresholdError.OrderingViolationError)
  else ({ m with unsureCutoff := v }, none)

/-- Modelled from the spec: `setCertainCutoff(v)`, absent from the header; the same
checks as `setUnsureCutoff`, for the other cut-point. -/
def ThresholdModel.setCertainCutoff {α : Type} [LinearOrderedField α] (m : ThresholdModel α)
    (v : α) : ThresholdModel α × Option ThresholdError :=
  if v < 0 ∨ 100 < v then (m, some ThresholdError.OutOfRangeError)
  else if ¬ m.unsureCutoff ≤ v then (m, some ThresholdError.OrderingViolationError)
  else ({ m with certainCutoff := v }, none)

/-- Modelled from the spec: one call of a `ThresholdModel` setter, as an event of the
configuration surface; the header holds no such code. -/
inductive ThresholdCall (α : Type) where
  | setUnsureCutoff (v : α)
  | setCertainCutoff (v : α)
  deriving DecidableEq, Repr

/-- Modelled from the spec: the effect of one setter call on the model (the header holds no
such code): the setter named by the call, with the error it reports. -/
def ThresholdModel.call {α : Type} [LinearOrderedField α] (m : ThresholdModel α) :
    ThresholdCall α → ThresholdModel α × Option ThresholdError
  | .setUnsureCutoff v => m.setUnsureCutoff v
  | .setCertainCutoff v => m.setCertainCutoff v

/-- Modelled from the spec: the model reached after a finite sequence of setter calls,
made one after the other, successful or not; the header holds no such code. -/
def ThresholdModel.run {α : Type} [LinearOrderedField α] (m : ThresholdModel α) :
    List (ThresholdCall α) → ThresholdModel α
  | [] => m
  | c :: cs => ThresholdModel.run (m.call c).1 cs

/-- Modelled from the spec: the `actionKind` of an `ActionDescriptor`,
`{None, MoveToFolder, MarkRead}`; absent from the header. -/
inductive ActionKind where
  | None
  | MoveToFolder
  | MarkRead
  deriving DecidableEq, Repr

/-- Modelled from the spec: `ActionDescriptor`, `{ actionKind, targetFolder: optional folder
reference }`, with the folder reference an opaque identifier; absent from the header. -/
structure ActionDescriptor where
  actionKind : ActionKind
  targetFolder : Option String
  deriving DecidableEq, Repr

/-- Modelled from the spec: the "safe no-op default" that `resolve` returns for a band with
no bound descriptor; absent from the header. -/
def ActionDescriptor.noop : ActionDescriptor :=
  { actionKind := ActionKind.None, targetFolder := none }

/-- Modelled from the spec: `ActionBinding`, which maps each of the three verdict bands to
the descriptor bound to it, if one is set; absent from the header. -/
structure ActionBinding where
  ham : Option ActionDescriptor
  unsure : Option ActionDescriptor
  spam : Option ActionDescriptor
  deriving DecidableEq, Repr

/-- Modelled from the spec: `resolve(band)`, absent from the header: the bound descriptor,
or a safe no-op default if unset. -/
def ActionBinding.resolve (b : ActionBinding) : VerdictBand → ActionDescriptor
  | .Ham => b.ham.getD ActionDescriptor.noop
  | .Unsure => b.unsure.getD ActionDescriptor.noop
  | .Spam => b.spam.getD ActionDescriptor.noop

/-- Modelled from the spec: the `ClassificationEngine`, which reads a `ThresholdModel` and
an `ActionBinding`; absent from the header. -/
structure ClassificationEngine (α : Type) where
  thresholds : ThresholdModel α
  bindings : ActionBinding
  deriving DecidableEq, Repr

/-- Modelled from the spec: the triple `(newBand, action, changed)` that `rescore` returns;
absent from the header. -/
structure RescoreResult where
  newBand : VerdictBand
  action : ActionDescriptor
  changed : Bool
  deriving DecidableEq, Repr

/-- Modelled from the spec: `evaluate(score)`, absent from the header:
`band = ThresholdModel.classify(score)`; `action = ActionBinding.resolve(band)`. -/
def ClassificationEngine.evaluate {α : Type} [LinearOrderedField α]
    (e : ClassificationEngine α) (score : α) : ActionDescriptor :=
  e.bindings.resolve (e.thresholds.classify score)

/-- Modelled from the spec: `rescore(previousBand, newScore)`, absent from the header: the
band recomputed from the score, the action bound to it, and `changed`, true iff the new
band is not the previous one. -/
def ClassificationEngine.rescore {α : Type} [LinearOrderedField α]
    (e : ClassificationEngine α) (previousBand : VerdictBand) (newScore : α) : RescoreResult :=
  let newBand := e.thresholds.classify newScore
  { newBand := newBand
    action := e.bindings.resolve newBand
    changed := decide (newBand ≠ previousBand) }

/-- Modelled from the spec: the three `Finished` variants of the wizard; the header holds
only the identifiers of their dialog pages. -/
inductive WizardOutcome where
  | Trained
  | Untrained
  | Unconfigured
  deriving DecidableEq, Repr

/-- Modelled from the spec: the wizard states
`Welcome → FolderSelection → Training → Finished{Trained|Untrained|Unconfigured}`; the
header holds only the identifiers of their dialog pages. -/
inductive WizardStep where
  | Welcome
  | FolderSelection
  | Training
  | Finished (outcome : WizardOutcome)
  deriving DecidableEq, Repr

/-- Modelled from the spec: `completionFlags: {foldersChosen, trainingDone}`; absent from
the header. -/
structure CompletionFlags where
  foldersChosen : Bool
  trainingDone : Bool
  deriving DecidableEq, Repr

/-- Modelled from the spec: `WizardSession`,
`{ currentStep, visitedSteps: set, completionFlags }`; absent from the header. -/
structure WizardSession where
  currentStep : WizardStep
  visitedSteps : List WizardStep
  completionFlags : CompletionFlags
  deriving DecidableEq, Repr

/-- Modelled from the spec: the errors of wizard navigation, taken from the error
taxonomy; the header defines no error. -/
inductive WizardError where
  | IncompleteStepError
  | AtStartError
  deriving DecidableEq, Repr

/-- Modelled from the spec: the session after a move to `step`, which becomes the current
step and joins the visited steps; absent from the header. -/
def WizardSession.moveTo (w : WizardSession) (step : WizardStep) : WizardSession :=
  { w with currentStep := step, visitedSteps := w.visitedSteps.insert step }

/-- Modelled from the spec: the wizard transition `next()`, absent from the header: from
`Welcome` to `FolderSelection`; from `FolderSelection` to `Training` only if
`completionFlags.foldersChosen` (else remains, reporting `IncompleteStepError`); from
`Training` to `Finished(Trained)` if `completionFlags.trainingDone`, else to
`Finished(Untrained)`, and to `Finished(Unconfigured)` regardless of training if folders
were never configured. The spec gives a `Finished` state no further step, so the session
stays as it is there. The result is the session after the call and the error reported. -/
def WizardSession.next (w : WizardSession) : WizardSession × Option WizardError :=
  match w.currentStep with
  | .Welcome => (w.moveTo .FolderSelection, none)
  | .FolderSelection =>
    if w.completionFlags.foldersChosen then (w.moveTo .Training, none)
    else (w, some WizardError.IncompleteStepError)
  | .Training =>
    if ¬ w.completionFlags.foldersChosen then (w.moveTo (.Finished .Unconfigured), none)
    else if w.completionFlags.trainingDone then (w.moveTo (.Finished .Trained), none)
    else (w.moveTo (.Finished .Untrained), none)
  | .Finished _ => (w, none)

/-- The four pairs of identifiers that, by the specification's reading of the header, are
the only differently named identifiers sharing a value (written from the claim, to be
compared with `ResourceId.value`). -/
def sharedValuePairs : List (ResourceId × ResourceId) :=
  [(ResourceId.IDD_WIZARD_FINISHED_UNCONFIGURED1, ResourceId.IDD_WIZARD_FINISHED_TRAINED),
   (ResourceId.IDC_BUT_CLEARALL2, ResourceId.IDC_BUT_NEW),
   (ResourceId.IDC_BUTTON1, ResourceId.IDC_BACK_BTN),
   (ResourceId.IDC_EDIT3, ResourceId.IDC_BUT_PREPARATION)]

/-! ## Theorems about the core modelled from the specification -/

section Core

variable {α : Type} [LinearOrderedField α]

/-- One setter call keeps the data-model invariant. -/
theorem ThresholdModel.valid_call (m : ThresholdModel α) (h : m.valid) (c : ThresholdCall α) :
    (m.call c).1.valid := by
  obtain ⟨h0, h1, h2⟩ := h
  cases c with
  | setUnsureCutoff v =>
    simp only [ThresholdModel.call, ThresholdModel.setUnsureCutoff]
    split_ifs with hr ho
    · exact ⟨h0, h1, h2⟩
    · push_neg at hr
      exact ⟨hr.1, ho, h2⟩
    · exact ⟨h0, h1, h2⟩
  | setCertainCutoff v =>
    simp only [ThresholdModel.call, ThresholdModel.setCertainCutoff]
    split_ifs with hr ho
    · exact ⟨h0, h1, h2⟩
    · push_neg at hr
      exact ⟨h0, ho, hr.2⟩
    · exact ⟨h0, h1, h2⟩

/-- A finite sequence of setter calls keeps the data-model invariant. -/
theorem ThresholdModel.valid_run (cs : List (ThresholdCall α)) :
    ∀ m : ThresholdModel α, m.valid → (m.run cs).valid := by
  induction cs with
  | nil => intro m h; exact h
  | cons c cs ih => intro m h; exact ih _ (m.valid_call h c)

/-- C1: for a threshold model with `0 ≤ unsureCutoff ≤ certainCutoff ≤ 100` and any score
`s`, `classify` picks the band by closed-open ascending intervals: Spam iff
`s ≥ certainCutoff`, Unsure iff `unsureCutoff ≤ s < certainCutoff`, Ham iff
`s < unsureCutoff`; a score equal to a cut-point is in the higher band (the certain
cut-point is Spam, the unsure cut-point is never Ham and is Unsure when the two cut-points
differ). -/
theorem classify_closed_open_bands (m : ThresholdModel α) (h : m.valid) (s : α) :
    (m.classify s = VerdictBand.Spam ↔ m.certainCutoff ≤ s) ∧
    (m.classify s = VerdictBand.Unsure ↔ m.unsureCutoff ≤ s ∧ s < m.certainCutoff) ∧
    (m.classify s = VerdictBand.Ham ↔ s < m.unsureCutoff) ∧
    m.classify m.certainCutoff = VerdictBand.Spam ∧
    m.classify m.unsureCutoff ≠ VerdictBand.Ham ∧
    (m.unsureCutoff < m.certainCutoff → m.classify m.unsureCutoff = VerdictBand.Unsure) := by
  obtain ⟨_, h1, _⟩ := h
  have hs : ∀ t : α, (m.classify t = VerdictBand.Spam ↔ m.certainCutoff ≤ t) := by
    intro t
    unfold ThresholdModel.classify
    split_ifs <;> simp_all
  have hu : ∀ t : α,
      (m.classify t = VerdictBand.Unsure ↔ m.unsureCutoff ≤ t ∧ t < m.certainCutoff) := by
    intro t
    unfold ThresholdModel.classify
    split_ifs with hc hb
    · have := not_lt.mpr hc
      simp_all
    · simp_all
    · simp only [false_iff]
      exact hb
  have hh : ∀ t : α, (m.classify t = VerdictBand.Ham ↔ t < m.unsureCutoff) := by
    intro t
    unfold ThresholdModel.classify
    split_ifs with hc hb
    · have : ¬ t < m.unsureCutoff := not_lt.mpr (le_trans h1 hc)
      simp_all
    · have : ¬ t < m.unsureCutoff := not_lt.mpr hb.1
      simp_all
    · simp only [true_iff]
      by_contra hn
      exact hb ⟨not_lt.mp hn, not_le.mp hc⟩
  refine ⟨hs s, hu s, hh s, (hs _).mpr le_rfl, ?_, fun hlt => (hu _).mpr ⟨le_rfl, hlt⟩⟩
  intro hham
  exact lt_irrefl _ ((hh _).mp hham)

/-- Witness for C1: the model with cut-points 20 and 90 over `ℚ` satisfies the invariant,
and there the score 50 is Unsure, by the interval characterisation. -/
theorem classify_closed_open_bands_witness :
    (ThresholdModel.mk (20 : ℚ) 90).valid ∧
    (ThresholdModel.mk (20 : ℚ) 90).classify 50 = VerdictBand.Unsure ∧
    (ThresholdModel.mk (20 : ℚ) 90).classify 90 = VerdictBand.Spam ∧
    (ThresholdModel.mk (20 : ℚ) 90).classify 20 = VerdictBand.Unsure :=
  have hv : (ThresholdModel.mk (20 : ℚ) 90).valid := by decide
  have hc := classify_closed_open_bands (ThresholdModel.mk (20 : ℚ) 90) hv 50
  ⟨hv, hc.2.1.mpr (by decide), hc.2.2.2.1, hc.2.2.2.2.2 (by decide)⟩

/-- C2: from a threshold model with `0 ≤ unsureCutoff ≤ certainCutoff ≤ 100`, after every
finite sequence of `setUnsureCutoff` / `setCertainCutoff` calls the model still has
`unsureCutoff ≤ certainCutoff` (indeed the whole invariant). For each setter and value: a
call that succeeds stores the value, leaves the other cut-point alone and keeps the
ordering; a call that reports an error leaves the model unchanged; the error is
`OutOfRangeError` exactly when the value is outside [0,100] and `OrderingViolationError`
exactly when it is in range and would break the ordering. -/
theorem cutoffs_ordered_after_setter_calls (m : ThresholdModel α) (h : m.valid)
    (cs : List (ThresholdCall α)) :
    (m.run cs).unsureCutoff ≤ (m.run cs).certainCutoff ∧
    (m.run cs).valid ∧
    (∀ v : α,
      ((m.setUnsureCutoff v).2 = none →
        (m.setUnsureCutoff v).1 = ThresholdModel.mk v m.certainCutoff ∧
        v ≤ m.certainCutoff) ∧
      ((m.setUnsureCutoff v).2 ≠ none → (m.setUnsureCutoff v).1 = m) ∧
      ((m.setUnsureCutoff v).2 = some ThresholdError.OutOfRangeError ↔ (v < 0 ∨ 100 < v)) ∧
      ((m.setUnsureCutoff v).2 = some ThresholdError.OrderingViolationError ↔
        (0 ≤ v ∧ v ≤ 100 ∧ ¬ v ≤ m.certainCutoff))) ∧
    (∀ v : α,
      ((m.setCertainCutoff v).2 = none →
        (m.setCertainCutoff v).1 = ThresholdModel.mk m.unsureCutoff v ∧
        m.unsureCutoff ≤ v) ∧
      ((m.setCertainCutoff v).2 ≠ none → (m.setCertainCutoff v).1 = m) ∧
      ((m.setCertainCutoff v).2 = some ThresholdError.OutOfRangeError ↔ (v < 0 ∨ 100 < v)) ∧
      ((m.setCertainCutoff v).2 = some ThresholdError.OrderingViolationError ↔
        (0 ≤ v ∧ v ≤ 100 ∧ ¬ m.unsureCutoff ≤ v))) := by
  have hv := ThresholdModel.valid_run cs m h
  refine ⟨hv.2.1, hv, ?_, ?_⟩
  · intro v
    unfold ThresholdModel.setUnsureCutoff
    split_ifs with hr ho
    · refine ⟨by simp, by simp, by simp [hr], ?_⟩
      constructor
      · intro he
        simp at he
      · rintro ⟨h0, h100, _⟩
        rcases hr with hr | hr
        · exact absurd h0 (not_le.mpr hr)
        · exact absurd h100 (not_le.mpr hr)
    · have hr2 := hr
      push_neg at hr2
      simp [hr, ho, hr2.1, hr2.2]
    · have hr2 := hr
      push_neg at hr2
      simp [hr, ho, hr2.1, hr2.2]
  · intro v
    unfold ThresholdModel.setCertainCutoff
    split_ifs with hr ho
    · refine ⟨by simp, by simp, by simp [hr], ?_⟩
      constructor
      · intro he
        simp at he
      · rintro ⟨h0, h100, _⟩
        rcases hr with hr | hr
        · exact absurd h0 (not_le.mpr hr)
        · exact absurd h100 (not_le.mpr hr)
    · have hr2 := hr
      push_neg at hr2
      simp [hr, ho, hr2.1, hr2.2]
    · have hr2 := hr
      push_neg at hr2
      simp [hr, ho, hr2.1, hr2.2]

/-- Witness for C2: from cut-points 20 and 90 over `ℚ`, five calls (two rejected for the
ordering, one for the range, two accepted) end at cut-points 40 and 50, still ordered. -/
theorem cutoffs_ordered_after_setter_calls_witness :
    (ThresholdModel.mk (20 : ℚ) 90).valid ∧
    (ThresholdModel.mk (20 : ℚ) 90).run
      [.setUnsureCutoff 95, .setCertainCutoff 50, .setUnsureCutoff 40, .setCertainCutoff 10,
       .setCertainCutoff 150] = ThresholdModel.mk 40 50 ∧
    ((ThresholdModel.mk (20 : ℚ) 90).run
      [.setUnsureCutoff 95, .setCertainCutoff 50, .setUnsureCutoff 40, .setCertainCutoff 10,
       .setCertainCutoff 150]).unsureCutoff ≤
    ((ThresholdModel.mk (20 : ℚ) 90).run
      [.setUnsureCutoff 95, .setCertainCutoff 50, .setUnsureCutoff 40, .setCertainCutoff 10,
       .setCertainCutoff 150]).certainCutoff :=
  ⟨by decide, by decide,
    (cutoffs_ordered_after_setter_calls (ThresholdModel.mk (20 : ℚ) 90) (by decide)
      [.setUnsureCutoff 95, .setCertainCutoff 50, .setUnsureCutoff 40, .setCertainCutoff 10,
       .setCertainCutoff 150]).1⟩

/-- C3: for every previous band `p` and score `s`, with fixed thresholds and bindings,
`rescore p s` returns the band `classify s`, the action `resolve` gives that band, and
`changed = true` iff the band differs from `p`; rescoring again from the returned band with
the same score returns the same band and action with `changed = false`. -/
theorem rescore_changed_iff_and_idempotent (e : ClassificationEngine α) (p : VerdictBand)
    (s : α) :
    (e.rescore p s).newBand = e.thresholds.classify s ∧
    (e.rescore p s).action = e.bindings.resolve (e.rescore p s).newBand ∧
    ((e.rescore p s).changed = true ↔ (e.rescore p s).newBand ≠ p) ∧
    (e.rescore (e.rescore p s).newBand s).newBand = (e.rescore p s).newBand ∧
    (e.rescore (e.rescore p s).newBand s).action = (e.rescore p s).action ∧
    (e.rescore (e.rescore p s).newBand s).changed = false := by
  simp [ClassificationEngine.rescore]

end Core

/-- C4: for a wizard session at `FolderSelection`, `next()` reports `IncompleteStepError`
and leaves the session (so `currentStep`) as it is when `foldersChosen` is false, and moves
to `Training` without an error when `foldersChosen` is true. -/
theorem next_from_folder_selection (w : WizardSession)
    (h : w.currentStep = WizardStep.FolderSelection) :
    (w.completionFlags.foldersChosen = false →
      w.next.2 = some WizardError.IncompleteStepError ∧
      w.next.1.currentStep = WizardStep.FolderSelection ∧ w.next.1 = w) ∧
    (w.completionFlags.foldersChosen = true →
      w.next.2 = none ∧ w.next.1.currentStep = WizardStep.Training) := by
  constructor
  · intro hf
    simp [WizardSession.next, h, hf]
  · intro hf
    simp [WizardSession.next, h, hf, WizardSession.moveTo]

/-- Witness for C4: a session at `FolderSelection` with no folders chosen; `next()`
reports `IncompleteStepError` and the step stays `FolderSelection`. -/
theorem next_from_folder_selection_witness :
    (WizardSession.mk .FolderSelection [.Welcome, .FolderSelection] ⟨false, false⟩).next.2
      = some WizardError.IncompleteStepError ∧
    (WizardSession.mk .FolderSelection [.Welcome, .FolderSelection] ⟨false, false⟩).next.1.currentStep
      = WizardStep.FolderSelection :=
  have hn := (next_from_folder_selection
    (WizardSession.mk .FolderSelection [.Welcome, .FolderSelection] ⟨false, false⟩) rfl).1 rfl
  ⟨hn.1, hn.2.1⟩

/-! ## Theorems about `dialogs.h` -/

section Header

open ResourceId

/-- The list `ResourceId.all` holds every identifier of the header. -/
theorem ResourceId.mem_all (a : ResourceId) : a ∈ ResourceId.all := by
  cases a <;> decide

/-- A property checked on the list `ResourceId.all` holds of every identifier. -/
theorem ResourceId.forall_of_all {P : ResourceId → Prop} (h : ∀ a ∈ ResourceId.all, P a)
    (a : ResourceId) : P a :=
  h a (ResourceId.mem_all a)

/-- C5, as stated, fails on the header: the wizard page identifiers do not all follow the
sequence welcome, folder selection, training, finished, because `IDD_WIZARD_TRAIN` (121) is
not smaller than `IDD_WIZARD_FINISHED_UNTRAINED` (116) or
`IDD_WIZARD_FINISHED_UNCONFIGURED` (119). -/
theorem wizard_page_ids_not_in_page_order :
    ¬ (IDD_WIZARD_WELCOME.value < IDD_WIZARD_FOLDERS_WATCH.value ∧
       IDD_WIZARD_WELCOME.value < IDD_WIZARD_FOLDERS_REST.value ∧
       IDD_WIZARD_WELCOME.value < IDD_WIZARD_FOLDERS_TRAIN.value ∧
       IDD_WIZARD_FOLDERS_WATCH.value < IDD_WIZARD_TRAIN.value ∧
       IDD_WIZARD_FOLDERS_REST.value < IDD_WIZARD_TRAIN.value ∧
       IDD_WIZARD_FOLDERS_TRAIN.value < IDD_WIZARD_TRAIN.value ∧
       IDD_WIZARD_TRAIN.value < IDD_WIZARD_FINISHED_TRAINED.value ∧
       IDD_WIZARD_TRAIN.value < IDD_WIZARD_FINISHED_UNTRAINED.value ∧
       IDD_WIZARD_TRAIN.value < IDD_WIZARD_FINISHED_UNCONFIGURED.value) := by
  decide

/-- C5, amended: `IDD_WIZARD_WELCOME` is smaller than each of the three folder-selection
page identifiers, each of those is smaller than `IDD_WIZARD_TRAIN`, and `IDD_WIZARD_TRAIN`
is smaller than `IDD_WIZARD_FINISHED_TRAINED`; the other two terminal pages,
`IDD_WIZARD_FINISHED_UNTRAINED` (116) and `IDD_WIZARD_FINISHED_UNCONFIGURED` (119), are
greater than `IDD_WIZARD_WELCOME` but smaller than `IDD_WIZARD_TRAIN`. -/
theorem wizard_page_ids_order :
    IDD_WIZARD_WELCOME.value < IDD_WIZARD_FOLDERS_WATCH.value ∧
    IDD_WIZARD_WELCOME.value < IDD_WIZARD_FOLDERS_REST.value ∧
    IDD_WIZARD_WELCOME.value < IDD_WIZARD_FOLDERS_TRAIN.value ∧
    IDD_WIZARD_FOLDERS_WATCH.value < IDD_WIZARD_TRAIN.value ∧
    IDD_WIZARD_FOLDERS_REST.value < IDD_WIZARD_TRAIN.value ∧
    IDD_WIZARD_FOLDERS_TRAIN.value < IDD_WIZARD_TRAIN.value ∧
    IDD_WIZARD_TRAIN.value < IDD_WIZARD_FINISHED_TRAINED.value ∧
    IDD_WIZARD_WELCOME.value < IDD_WIZARD_FINISHED_UNTRAINED.value ∧
    IDD_WIZARD_FINISHED_UNTRAINED.value < IDD_WIZARD_TRAIN.value ∧
    IDD_WIZARD_WELCOME.value < IDD_WIZARD_FINISHED_UNCONFIGURED.value ∧
    IDD_WIZARD_FINISHED_UNCONFIGURED.value < IDD_WIZARD_TRAIN.value := by
  decide

/-- C6: the identifiers of the three terminal wizard pages, `IDD_WIZARD_FINISHED_TRAINED`,
`IDD_WIZARD_FINISHED_UNTRAINED` and `IDD_WIZARD_FINISHED_UNCONFIGURED`, have pairwise
distinct values, and none of them has the value of a non-terminal wizard page
(`IDD_WIZARD`, `IDD_WIZARD_WELCOME`, `IDD_WIZARD_FOLDERS_REST`, `IDD_WIZARD_FOLDERS_WATCH`,
`IDD_WIZARD_FOLDERS_TRAIN`, `IDD_WIZARD_TRAIN`). -/
theorem finished_page_ids_distinct :
    IDD_WIZARD_FINISHED_TRAINED.value ≠ IDD_WIZARD_FINISHED_UNTRAINED.value ∧
    IDD_WIZARD_FINISHED_TRAINED.value ≠ IDD_WIZARD_FINISHED_UNCONFIGURED.value ∧
    IDD_WIZARD_FINISHED_UNTRAINED.value ≠ IDD_WIZARD_FINISHED_UNCONFIGURED.value ∧
    (∀ t ∈ [IDD_WIZARD_FINISHED_TRAINED, IDD_WIZARD_FINISHED_UNTRAINED,
        IDD_WIZARD_FINISHED_UNCONFIGURED],
      ∀ p ∈ [IDD_WIZARD, IDD_WIZARD_WELCOME, IDD_WIZARD_FOLDERS_REST,
        IDD_WIZARD_FOLDERS_WATCH, IDD_WIZARD_FOLDERS_TRAIN, IDD_WIZARD_TRAIN],
      t.value ≠ p.value) := by
  decide

/-- C7 fails on the header: `_APS_NEXT_RESOURCE_VALUE` (116) is the value of the dialog
identifier `IDD_WIZARD_FINISHED_UNTRAINED`, the dialog identifiers at or above it are the
eight with values 116 to 122, and so neither "no dialog or bitmap identifier has this
value" nor "it is greater than every dialog identifier" holds. -/
theorem next_resource_value_in_use :
    IDD_WIZARD_FINISHED_UNTRAINED.kind = ResourceKind.IDD ∧
    IDD_WIZARD_FINISHED_UNTRAINED.value = _APS_NEXT_RESOURCE_VALUE ∧
    ResourceId.all.filter
        (fun a => a.kind = ResourceKind.IDD ∧ _APS_NEXT_RESOURCE_VALUE ≤ a.value) =
      [IDD_WIZARD_FINISHED_UNTRAINED, IDD_WIZARD_FOLDERS_REST, IDD_WIZARD_FOLDERS_WATCH,
       IDD_WIZARD_FINISHED_UNCONFIGURED, IDD_WIZARD_FOLDERS_TRAIN, IDD_WIZARD_TRAIN,
       IDD_WIZARD_FINISHED_UNCONFIGURED1, IDD_WIZARD_FINISHED_TRAINED] ∧
    ¬ (∀ a : ResourceId, a.kind = ResourceKind.IDD ∨ a.kind = ResourceKind.IDB →
        a.value ≠ _APS_NEXT_RESOURCE_VALUE) ∧
    ¬ (∀ a : ResourceId, a.kind = ResourceKind.IDD → a.value < _APS_NEXT_RESOURCE_VALUE) := by
  refine ⟨by decide, by decide, by decide, ?_, ?_⟩
  · intro hall
    exact hall IDD_WIZARD_FINISHED_UNTRAINED (by decide) (by decide)
  · intro hall
    exact absurd (hall IDD_WIZARD_FINISHED_UNTRAINED (by decide)) (by decide)

/-- C8: `_APS_NEXT_CONTROL_VALUE` is strictly greater than the value of every control
identifier (`IDC_`) and of the other identifier in the control range (`IDB_SBLOGO`), so
none of them has that value. -/
theorem next_control_value_free (a : ResourceId)
    (h : a.kind = ResourceKind.IDC ∨ a = IDB_SBLOGO) :
    a.value < _APS_NEXT_CONTROL_VALUE ∧ a.value ≠ _APS_NEXT_CONTROL_VALUE := by
  have key : ∀ x ∈ ResourceId.all, x.kind = ResourceKind.IDC ∨ x = IDB_SBLOGO →
      x.value < _APS_NEXT_CONTROL_VALUE ∧ x.value ≠ _APS_NEXT_CONTROL_VALUE := by
    decide
  exact key a (ResourceId.mem_all a) h

/-- Witness for C8: the control identifier with the greatest value, `IDC_FOLDER_HAM`
(1083), is below `_APS_NEXT_CONTROL_VALUE` (1086). -/
theorem next_control_value_free_witness :
    IDC_FOLDER_HAM.kind = ResourceKind.IDC ∧ IDC_FOLDER_HAM.value = 1083 ∧
    IDC_FOLDER_HAM.value < _APS_NEXT_CONTROL_VALUE :=
  ⟨by decide, by decide, (next_control_value_free IDC_FOLDER_HAM (Or.inl (by decide))).1⟩

set_option maxRecDepth 100000 in
/-- C9: among the `IDD_`, `IDB_` and `IDC_` identifiers of the header, two differently
named identifiers have the same value if and only if they are one of the four pairs of
`sharedValuePairs` (whose values are 122, 1045, 1069 and 1081); an identifier outside those
pairs has a value no other name shares; and every dialog or bitmap-1 identifier has a value
in 101..122 while every control identifier (and `IDB_SBLOGO`) has a value of 1000 or more,
so the two groups share no value. -/
theorem shared_values_exactly_four_pairs :
    (∀ a b : ResourceId, a ≠ b →
      (a.value = b.value ↔ ((a, b) ∈ sharedValuePairs ∨ (b, a) ∈ sharedValuePairs))) ∧
    sharedValuePairs.map (fun p => (p.1.value, p.2.value)) =
      [(122, 122), (1045, 1045), (1069, 1069), (1081, 1081)] ∧
    (∀ a : ResourceId, (∀ p ∈ sharedValuePairs, a ≠ p.1 ∧ a ≠ p.2) →
      ∀ b : ResourceId, b ≠ a → b.value ≠ a.value) ∧
    (∀ a b : ResourceId, (a.kind = ResourceKind.IDD ∨ a = IDB_BITMAP1) →
      (b.kind = ResourceKind.IDC ∨ b = IDB_SBLOGO) →
      101 ≤ a.value ∧ a.value ≤ 122 ∧ 1000 ≤ b.value ∧ a.value ≠ b.value) := by
  have key : ∀ a ∈ ResourceId.all, ∀ b ∈ ResourceId.all, a ≠ b →
      (a.value = b.value ↔ ((a, b) ∈ sharedValuePairs ∨ (b, a) ∈ sharedValuePairs)) := by
    decide
  have hlow : ∀ a ∈ ResourceId.all, (a.kind = ResourceKind.IDD ∨ a = IDB_BITMAP1) →
      101 ≤ a.value ∧ a.value ≤ 122 := by
    decide
  have hhigh : ∀ b ∈ ResourceId.all, (b.kind = ResourceKind.IDC ∨ b = IDB_SBLOGO) →
      1000 ≤ b.value := by
    decide
  have hiff : ∀ a b : ResourceId, a ≠ b →
      (a.value = b.value ↔ ((a, b) ∈ sharedValuePairs ∨ (b, a) ∈ sharedValuePairs)) :=
    fun a b => key a (ResourceId.mem_all a) b (ResourceId.mem_all b)
  refine ⟨hiff, by decide, ?_, ?_⟩
  · intro a ha b hba hval
    rcases (hiff b a hba).mp hval with hm | hm
    · exact (ha _ hm).2 rfl
    · exact (ha _ hm).1 rfl
  · intro a b ha hb
    have h1 := hlow a (ResourceId.mem_all a) ha
    have h2 := hhigh b (ResourceId.mem_all b) hb
    exact ⟨h1.1, h1.2, h2, by omega⟩

/-- Witness for C9: `IDC_BUTTON1` and `IDC_BACK_BTN` are two names, and they share the
value 1069 because they are one of the four pairs. -/
theorem shared_values_exactly_four_pairs_witness :
    IDC_BUTTON1 ≠ IDC_BACK_BTN ∧ IDC_BUTTON1.value = IDC_BACK_BTN.value ∧
    IDC_BUTTON1.value = 1069 :=
  ⟨by decide,
    (shared_values_exactly_four_pairs.1 IDC_BUTTON1 IDC_BACK_BTN (by decide)).mpr
      (Or.inl (by decide)),
    by decide⟩

end Header

end SpamBayes
